import Mathlib

/-!
Verification of the PromptQL MCP server (promptql-mcp) against its
natural-language specification.

The Python sources are shallowly embedded: Python/JSON values (the duck-typed
dicts flowing through `promptql_client.py` and `server.py`) are modelled by the
inductive `JValue`; `dict.get`, key membership, item assignment and Python
truthiness are modelled by executable helpers that follow Python semantics.
External effects (HTTP responses, `json.loads`, raised exceptions) enter as
explicit parameters: an HTTP exchange is a value describing the response (or
the transport exception raised), `json.loads` is a function parameter
returning `Option JValue` (`none` models `json.JSONDecodeError`), and a Python
computation that may raise is an `Except PyExn` value.
-/

set_option autoImplicit false

namespace PromptQLMcp

/-- JSON-like values: the shallow embedding of the Python values (dicts, lists,
strings, numbers, booleans, `None`) that flow through the client and server. -/
inductive JValue where
  | jnull
  | jbool (b : Bool)
  | jnum (n : Int)
  | jstr (s : String)
  | jarr (elems : List JValue)
  | jobj (fields : List (String × JValue))

namespace JValue

/-- Python `d.get(k)` (default `None` is modelled by `Option`): first binding
of `k` in a dict. Non-dict receivers raise `AttributeError` in Python; they
never occur at the call sites we embed (all claims range over dict-shaped
states), and are mapped to `none`. -/
def lookup : JValue → String → Option JValue
  | .jobj fields, k => List.lookup k fields
  | _, _ => none

/-- Python `d.get(k, default)`. -/
def getD (v : JValue) (k : String) (default : JValue) : JValue :=
  (v.lookup k).getD default

/-- Python `k in d` (key membership). -/
def hasKey (v : JValue) (k : String) : Bool :=
  (v.lookup k).isSome

/-- Python truthiness of a value: `None`, `False`, `0`, `""`, `[]`, and
`{}` are falsy, everything else is truthy. -/
def truthy : JValue → Bool
  | .jnull => false
  | .jbool b => b
  | .jnum n => n != 0
  | .jstr s => s != ""
  | .jarr elems => !elems.isEmpty
  | .jobj fields => !fields.isEmpty

/-- Update the binding of `k` (or append it), as Python item assignment does. -/
def setAssoc {β : Type} : List (String × β) → String → β → List (String × β)
  | [], k, v => [(k, v)]
  | (k', v') :: rest, k, v =>
      if k' = k then (k, v) :: rest else (k', v') :: setAssoc rest k v

/-- Python `d[k] = v` on a dict (after `d.copy()`, since our values are pure).
Non-dict receivers raise in Python and never occur at the embedded sites. -/
def setKey : JValue → String → JValue → JValue
  | .jobj fields, k, v => .jobj (setAssoc fields k v)
  | other, _, _ => other

/-- The list held by a JSON array, `[]` otherwise.  Used where the Python code
iterates a value it obtained with default `[]`; a truthy non-list there would
raise `TypeError` in Python and never occurs on the states the claims range
over. -/
def asList : JValue → List JValue
  | .jarr elems => elems
  | _ => []

/-- Python `x is None`. -/
def isNull : JValue → Bool
  | .jnull => true
  | _ => false

end JValue

/-- Python `x == s` for a string literal `s`: true exactly when `x` is that
string (values of other types never equal a `str`). The receiver is the
result of a `d.get(k)` (so `none` models Python `None`). -/
def optEqStr (o : Option JValue) (s : String) : Bool :=
  match o with
  | some (.jstr t) => t == s
  | _ => false

/-- Python `d.get(k) is not None`: key present with a non-null value. -/
def getIsNotNone (o : Option JValue) : Bool :=
  match o with
  | some v => !v.isNull
  | none => false

/-- Character-list version of string-prefix testing (kernel-reducible). -/
def charsPre : List Char → List Char → Bool
  | [], _ => true
  | _ :: _, [] => false
  | a :: as, b :: bs => a == b && charsPre as bs

/-- Python `s.startswith(p)`. -/
def strStartsWith (s p : String) : Bool :=
  charsPre p.data s.data

/-- Python `s[n:]` (slicing off the first `n` characters). -/
def strDrop (s : String) (n : Nat) : String :=
  String.mk (s.data.drop n)

open JValue

/-! ## `PromptQLClient._is_thread_complete` (api/promptql_client.py 410-430) -/

/-- Embedding of `_is_thread_complete`: look at the latest interaction; if it
has assistant actions, the thread is complete exactly when the **last** action
has `status == "complete"`, or a `message` that is not `None`, or the key
`llm_call_end_timestamp` present. -/
def isThreadComplete (threadData : JValue) : Bool :=
  let interactions := threadData.getD "interactions" (.jarr [])
  if !interactions.truthy then false
  else
    match interactions with
    | .jarr items =>
      match items.getLast? with
      | none => false
      | some latestInteraction =>
        let assistantActions := latestInteraction.getD "assistant_actions" (.jarr [])
        match assistantActions with
        | .jarr acts =>
          match acts.getLast? with
          | none => false
          | some lastAction =>
            optEqStr (lastAction.lookup "status") "complete" ||
            getIsNotNone (lastAction.lookup "message") ||
            lastAction.hasKey "llm_call_end_timestamp"
        | _ => false
    | _ => false

/-! ### Spec-side completeness predicates (§3 of the spec / claim C1) -/

/-- The spec's completion disjunction for one assistant action: status is
`complete`, or the action carries a non-null `message`, or its LLM-call-end
timestamp is set (key present). -/
def actionSignalsCompletion (a : JValue) : Bool :=
  optEqStr (a.lookup "status") "complete" ||
  getIsNotNone (a.lookup "message") ||
  a.hasKey "llm_call_end_timestamp"

/-- The interactions of a thread state, as a list. -/
def interactionsList (threadData : JValue) : List JValue :=
  match threadData.lookup "interactions" with
  | some (.jarr items) => items
  | _ => []

/-- The assistant actions of one interaction, as a list. -/
def actionsList (interaction : JValue) : List JValue :=
  match interaction.lookup "assistant_actions" with
  | some (.jarr acts) => acts
  | _ => []

/-- Claim C1's predicate, following the spec's words (§3): the latest
interaction has **at least one** assistant action signalling completion. -/
def specCompleteAny (threadData : JValue) : Bool :=
  match (interactionsList threadData).getLast? with
  | none => false
  | some latest => (actionsList latest).any actionSignalsCompletion

/-- The amended predicate: the latest interaction's **last** assistant action
signals completion. -/
def specCompleteLast (threadData : JValue) : Bool :=
  match (interactionsList threadData).getLast? with
  | none => false
  | some latest =>
    match (actionsList latest).getLast? with
    | none => false
    | some lastAction => actionSignalsCompletion lastAction

/-! ## `PromptQLClient._parse_sse_stream` (api/promptql_client.py 312-387)

The stream is the list of decoded lines yielded by `response.iter_lines`;
`json.loads` is the parameter `jloads`, with `none` modelling
`json.JSONDecodeError` (the `continue` branch). -/

/-- The enhanced snapshot built from a `current-thread-state` event's payload:
`event_data["thread_state"].copy()` with `thread_id`, `title` and `version`
copied in from the top level (absent keys become `None`). -/
def enhanceState (eventData : JValue) : JValue :=
  (((eventData.getD "thread_state" .jnull).setKey
      "thread_id" (eventData.getD "thread_id" .jnull)).setKey
      "title" (eventData.getD "title" .jnull)).setKey
      "version" (eventData.getD "version" .jnull)

/-- One step of the SSE loop body: the state is the pair
(`current_event_type`, `thread_state`). -/
def parseSseLine (jloads : String → Option JValue)
    (st : Option String × Option JValue) (line : String) :
    Option String × Option JValue :=
  let (currentEventType, threadState) := st
  if strStartsWith line "event: " then
    (some (strDrop line 7), threadState)
  else if strStartsWith line "data: " then
    match jloads (strDrop line 6) with
    | none => (currentEventType, threadState)
    | some eventData =>
      if currentEventType = some "current-thread-state" then
        if eventData.hasKey "thread_state" then
          let newState := eventData.getD "thread_state" .jnull
          if newState.truthy then (currentEventType, some (enhanceState eventData))
          else (currentEventType, threadState)
        else (currentEventType, threadState)
      else
        (currentEventType, threadState)
  else if line = "" then
    (none, threadState)
  else
    (currentEventType, threadState)

/-- Embedding of `_parse_sse_stream`: fold the loop body over the lines and
return `thread_state or {}`. -/
def parseSseStream (jloads : String → Option JValue) (lines : List String) : JValue :=
  ((lines.foldl (parseSseLine jloads) (none, none)).2).getD (.jobj [])

/-- Spec-side description of the stream: the (enhanced) snapshots delivered by
the `current-thread-state` event blocks whose nested `thread_state` is truthy,
in stream order, starting from event type `et`. -/
def stateSnapshotsFrom (jloads : String → Option JValue) :
    Option String → List String → List JValue
  | _, [] => []
  | et, line :: rest =>
    if strStartsWith line "event: " then
      stateSnapshotsFrom jloads (some (strDrop line 7)) rest
    else if strStartsWith line "data: " then
      match jloads (strDrop line 6) with
      | none => stateSnapshotsFrom jloads et rest
      | some eventData =>
        if et = some "current-thread-state" then
          if eventData.hasKey "thread_state" then
            if (eventData.getD "thread_state" .jnull).truthy then
              enhanceState eventData :: stateSnapshotsFrom jloads et rest
            else stateSnapshotsFrom jloads et rest
          else stateSnapshotsFrom jloads et rest
        else stateSnapshotsFrom jloads et rest
    else if line = "" then
      stateSnapshotsFrom jloads none rest
    else
      stateSnapshotsFrom jloads et rest

/-- The snapshots of a whole stream (initial event type `None`). -/
def stateSnapshots (jloads : String → Option JValue) (lines : List String) : List JValue :=
  stateSnapshotsFrom jloads none lines

/-! ## `PromptQLClient.get_thread_status` (api/promptql_client.py 105-147) -/

/-- The transport-level exceptions the client distinguishes in its `except`
clauses. -/
inductive ReqExn where
  | timeoutExn
  | connectionError
  | otherExn (msg : String)

/-- An HTTP response to the status request, as the code observes it: status
code, the decoded lines of the body, and the raw text (used for `details`). -/
structure SseResp where
  status : Nat
  lines : List String
  text : String

/-- Embedding of `PromptQLClient.get_thread_status`: non-200 and transport
exceptions become error dicts; a 200 body is parsed **only** with
`_parse_sse_stream`, a falsy parse result becomes the SSE parse-failure error
dict. -/
def getThreadStatusClient (jloads : String → Option JValue) (threadId : String)
    (resp : Except ReqExn SseResp) : JValue :=
  match resp with
  | .error .timeoutExn => .jobj [("error", .jstr "Request timeout while getting thread status")]
  | .error .connectionError => .jobj [("error", .jstr "Connection error while getting thread status")]
  | .error (.otherExn e) => .jobj [("error", .jstr ("Status error: " ++ e))]
  | .ok r =>
    if r.status ≠ 200 then
      .jobj [("error", .jstr ("Status error: " ++ toString r.status)), ("details", .jstr r.text)]
    else
      let threadData := parseSseStream jloads r.lines
      if threadData.truthy then
        .jobj [("thread_id", .jstr threadId),
               ("status", .jstr (if isThreadComplete threadData then "complete" else "processing")),
               ("thread_data", threadData)]
      else
        .jobj [("error", .jstr "Failed to parse thread status from SSE stream")]

/-! ## Further Python string primitives (kernel-reducible embeddings) -/

/-- ASCII lower-casing of one character. -/
def charLower (c : Char) : Char :=
  if 'A' ≤ c ∧ c ≤ 'Z' then Char.ofNat (c.toNat + 32) else c

/-- ASCII upper-casing of one character. -/
def charUpper (c : Char) : Char :=
  if 'a' ≤ c ∧ c ≤ 'z' then Char.ofNat (c.toNat - 32) else c

/-- Python `s.lower()`. -/
def strLower (s : String) : String := String.mk (s.data.map charLower)

/-- Python `s.upper()`. -/
def strUpper (s : String) : String := String.mk (s.data.map charUpper)

/-- Python `s[:n]`. -/
def strTake (s : String) (n : Nat) : String := String.mk (s.data.take n)

/-- Python `s[-n:]` (for `n ≥ 1`): the last `n` characters, or all of a
shorter string. -/
def strTakeRight (s : String) (n : Nat) : String :=
  String.mk ((s.data.reverse.take n).reverse)

/-- Python `s.rstrip(c)`. -/
def strRstrip (s : String) (c : Char) : String :=
  String.mk ((s.data.reverse.dropWhile (· == c)).reverse)

/-- Python exceptions, represented by their message text. -/
abbrev PyExn := String

/-! ## Configuration store (config.py) -/

/-- The configuration as `ConfigManager` sees it: the process environment
(`os.environ`) and the in-memory mapping `self.config` backed by the config
file. -/
structure ConfigState where
  env : List (String × String)
  file : List (String × String)

/-- Embedding of `ConfigManager.get` (config.py 78-86): a truthy environment
variable `PROMPTQL_{KEY}` wins, otherwise the file mapping at `key.lower()`
(default `None`). -/
def configGet (cfg : ConfigState) (key : String) : Option String :=
  match List.lookup ("PROMPTQL_" ++ strUpper key) cfg.env with
  | some v => if v = "" then List.lookup (strLower key) cfg.file else some v
  | none => List.lookup (strLower key) cfg.file

/-- Python truthiness of an optional string (`None` and `""` are falsy). -/
def optStrTruthy (o : Option String) : Bool :=
  match o with
  | some s => s != ""
  | none => false

/-- Embedding of `ConfigManager.set` (config.py 88-96): a falsy (empty) value
is rejected with only a log line and nothing changes; otherwise the key is
updated and `save_config` writes the file. The `Bool` records whether
`save_config` was invoked. -/
def configSet (cfg : ConfigState) (key value : String) : ConfigState × Bool :=
  if value = "" then (cfg, false)
  else ({ cfg with file := JValue.setAssoc cfg.file (strLower key) value }, true)

/-- Modelled from the spec: `ConfigManager.get_auth_mode` is called by
server.py (lines 24 and 101) but its definition is absent from the sources
(only its callers exist). Per §6 of the spec and the caller's own comment
("Defaults to \x22public\x22 if not set") it returns the configured
`auth_mode`, defaulting to `"public"`. -/
def getAuthMode (cfg : ConfigState) : String :=
  (configGet cfg "auth_mode").getD "public"

/-! ## Client construction (promptql_client.py 22-42, server.py 19-31) -/

/-- The fields `PromptQLClient.__init__` stores. -/
structure Client where
  api_key : String
  playground_url : String
  auth_token : String
  auth_mode : String
  timezone : String

/-- Embedding of `PromptQLClient.__init__` (promptql_client.py 22-42):
normalises the playground URL, lower-cases and validates `auth_mode`
(raising `ValueError` otherwise). -/
def promptqlClientInit (apiKey playgroundUrl authToken authMode timezone : String) :
    Except PyExn Client :=
  let mode := strLower authMode
  if mode = "public" ∨ mode = "private" then
    .ok ⟨apiKey, strRstrip playgroundUrl '/', authToken, mode, timezone⟩
  else
    .error ("Invalid auth_mode \x27" ++ authMode ++
      "\x27. Must be \x27public\x27 or \x27private\x27.")

/-- Embedding of `_get_promptql_client` (server.py 19-31): raises `ValueError`
when a credential is missing (falsy), then constructs the client (which may
itself raise). -/
def getPromptqlClient (cfg : ConfigState) : Except PyExn Client :=
  let apiKey := configGet cfg "api_key"
  let playgroundUrl := configGet cfg "playground_url"
  let authToken := configGet cfg "auth_token"
  if optStrTruthy apiKey && optStrTruthy playgroundUrl && optStrTruthy authToken then
    promptqlClientInit (apiKey.getD "") (playgroundUrl.getD "") (authToken.getD "")
      (getAuthMode cfg) "America/Los_Angeles"
  else
    .error "PromptQL API key, playground URL, and auth token must be configured. Use the setup_config tool."

/-! ## Remaining client operations (promptql_client.py) -/

/-- The response to the cancel request, as the code observes it. -/
structure HttpTextResp where
  status : Nat
  text : String

/-- Embedding of `PromptQLClient.cancel_thread` (promptql_client.py 149-180):
200 is success, 400 is the recoverable "not currently processing" failure,
anything else a generic error dict; a raised exception is caught into an
error dict. -/
def cancelThreadClient (threadId : String) (resp : Except PyExn HttpTextResp) : JValue :=
  match resp with
  | .error e => .jobj [("error", .jstr ("Cancel error: " ++ e))]
  | .ok r =>
    if r.status = 200 then
      .jobj [("thread_id", .jstr threadId), ("status", .jstr "cancelled"),
             ("message", .jstr "Thread processing cancelled successfully")]
    else if r.status = 400 then
      .jobj [("error", .jstr "Cannot cancel thread"),
             ("details", .jstr "Thread is not currently processing an interaction")]
    else
      .jobj [("error", .jstr ("Cancel error: " ++ toString r.status)), ("details", .jstr r.text)]

/-- The response to the artifact request: status, the outcome of
`response.json()` (`none` models `json.JSONDecodeError`), the `content-type`
header, the raw text body and `len(response.content)`. -/
structure ArtifactResp where
  status : Nat
  jsonBody : Option JValue
  contentTypeHeader : Option String
  text : String
  contentLength : Nat

/-- Embedding of `PromptQLClient.get_artifact` (promptql_client.py 182-227):
JSON parse first with text fallback on 200; 404 is reported as "Artifact not
found"; other statuses and raised exceptions become generic error dicts. -/
def getArtifactClient (threadId artifactId : String)
    (resp : Except PyExn ArtifactResp) : JValue :=
  match resp with
  | .error e => .jobj [("error", .jstr ("Artifact error: " ++ e))]
  | .ok r =>
    if r.status = 200 then
      match r.jsonBody with
      | some artifactData =>
        .jobj [("thread_id", .jstr threadId), ("artifact_id", .jstr artifactId),
               ("content_type", .jstr (r.contentTypeHeader.getD "application/json")),
               ("data", artifactData), ("size", .jnum (r.contentLength : Int))]
      | none =>
        .jobj [("thread_id", .jstr threadId), ("artifact_id", .jstr artifactId),
               ("content_type", .jstr (r.contentTypeHeader.getD "text/plain")),
               ("data", .jstr r.text), ("size", .jnum (r.contentLength : Int))]
    else if r.status = 404 then
      .jobj [("error", .jstr "Artifact not found"),
             ("details", .jstr ("Artifact " ++ artifactId ++ " not found in thread " ++ threadId))]
    else
      .jobj [("error", .jstr ("Artifact error: " ++ toString r.status)), ("details", .jstr r.text)]

/-- The timeout error dict of `_poll_thread_completion`. -/
def timeoutResult (maxWait : Nat) : JValue :=
  .jobj [("error", .jstr ("Thread processing timeout after " ++ toString maxWait ++ " seconds"))]

/-- Embedding of the loop of `_poll_thread_completion` (promptql_client.py
286-310). Iteration `i` starts at elapsed time `i * pollInterval` (the loop
sleeps `pollInterval` at the end of every iteration; HTTP time is abstracted
to zero), matching `while time.time() - start_time < max_wait_time`.
`fetch i` is what `self.get_thread_status(thread_id)` returns on iteration
`i`. The structural `fuel` only bounds recursion: with `pollInterval ≥ 1` and
the fuel used by `pollThreadCompletion` it is never exhausted before the
while-condition fails, and its base case returns the same timeout dict the
exhausted loop returns. -/
def pollGo (fetch : Nat → JValue) (maxWait pollInterval : Nat) : Nat → Nat → JValue
  | 0, _ => timeoutResult maxWait
  | fuel + 1, i =>
    if i * pollInterval < maxWait then
      let statusResult := fetch i
      if statusResult.hasKey "error" then statusResult
      else if optEqStr (statusResult.lookup "status") "complete" then
        statusResult.getD "thread_data" (.jobj [])
      else pollGo fetch maxWait pollInterval fuel (i + 1)
    else timeoutResult maxWait

/-- `_poll_thread_completion` with its defaults `max_wait_time = 120`,
`poll_interval = 2` caller-overridable. -/
def pollThreadCompletion (fetch : Nat → JValue) (maxWait pollInterval : Nat) : JValue :=
  pollGo fetch maxWait pollInterval (maxWait + 1) 0

/-! ## server.py tool bodies -/

/-- The fixed placeholder answer (server.py 191 / 387). -/
def noAnswerPlaceholder : JValue := .jstr "No answer received from PromptQL."

/-- Embedding of the answer-extraction loop shared by the start_thread
(server.py 196-208) and continue_thread (392-404) tool bodies: the last
assistant action of the latest interaction whose `message` is truthy wins. -/
def extractAnswer (result : JValue) : JValue :=
  let interactions := result.getD "interactions" (.jarr [])
  if !interactions.truthy then noAnswerPlaceholder
  else
    match interactions.asList.getLast? with
    | none => noAnswerPlaceholder
    | some latestInteraction =>
      let assistantActions := (latestInteraction.getD "assistant_actions" (.jarr [])).asList
      match assistantActions.reverse.find? (fun a => ((a.lookup "message").getD .jnull).truthy) with
      | some action => action.getD "message" (.jstr "")
      | none => noAnswerPlaceholder

/-- The `value = action.get(k); if value: out.append(value)` collection
pattern of the tool bodies (plans, code blocks, code outputs). -/
def collectTruthyField (acts : List JValue) (k : String) : List JValue :=
  acts.filterMap (fun a =>
    let v := a.getD k .jnull
    if v.truthy then some v else none)

/-- The flattened artifact identifiers across all interactions
(server.py 230-239 / 426-434). -/
def artifactsFound (items : List JValue) : List JValue :=
  items.flatMap (fun interaction =>
    ((interaction.getD "assistant_actions" (.jarr [])).asList).flatMap (fun action =>
      let ids := action.getD "artifact_identifiers" (.jarr [])
      if ids.truthy then ids.asList else []))

/-- The assistant actions of the latest interaction as the tool bodies select
them (`interactions[-1].get("assistant_actions", [])` under `if interactions:`). -/
def latestActions (interactions : JValue) : List JValue :=
  if interactions.truthy then
    match interactions.asList.getLast? with
    | some latestInteraction => (latestInteraction.getD "assistant_actions" (.jarr [])).asList
    | none => []
  else []

/-- The action carries a non-empty string `message` — the claims' notion of
"non-empty message". -/
def nonEmptyMsg (a : JValue) : Bool :=
  match a.lookup "message" with
  | some (.jstr s) => s != ""
  | _ => false

/-- The `message` field is absent, null, or a string — the shapes the wire
protocol produces. -/
def msgWellFormed (a : JValue) : Bool :=
  match a.lookup "message" with
  | none => true
  | some .jnull => true
  | some (.jstr _) => true
  | _ => false

/-- Embedding of the start_thread tool body (server.py 164-256) applied to
the dict the client call returned. -/
def startThreadBody (result : JValue) : JValue :=
  if result.hasKey "error" then
    .jobj [("success", .jbool false),
           ("error", result.getD "error" .jnull),
           ("details", result.getD "details" (.jstr "")),
           ("thread_id", .jnull), ("interaction_id", .jnull)]
  else
    let threadId := (result.lookup "thread_id").getD .jnull
    if !threadId.truthy then
      .jobj [("success", .jbool false),
             ("error", .jstr "No thread_id received from PromptQL"),
             ("thread_id", .jnull), ("interaction_id", .jnull)]
    else
      let interactions := result.getD "interactions" (.jarr [])
      let acts := latestActions interactions
      .jobj [("success", .jbool true),
             ("thread_id", threadId),
             ("interaction_id", (result.lookup "interaction_id").getD .jnull),
             ("answer", extractAnswer result),
             ("plans", .jarr (collectTruthyField acts "plan")),
             ("code_blocks", .jarr (collectTruthyField acts "code")),
             ("code_outputs", .jarr (collectTruthyField acts "code_output")),
             ("artifacts", .jarr (artifactsFound interactions.asList)),
             ("interactions_count", .jnum (interactions.asList.length : Int)),
             ("raw_response", result)]

/-- Embedding of the start_thread_without_polling tool body
(server.py 296-330). -/
def startThreadNoPollingBody (result : JValue) : JValue :=
  if result.hasKey "error" then
    .jobj [("success", .jbool false),
           ("error", result.getD "error" .jnull),
           ("details", result.getD "details" (.jstr "")),
           ("thread_id", .jnull), ("interaction_id", .jnull)]
  else
    let threadId := (result.lookup "thread_id").getD .jnull
    if !threadId.truthy then
      .jobj [("success", .jbool false),
             ("error", .jstr "No thread_id received from PromptQL"),
             ("thread_id", .jnull), ("interaction_id", .jnull)]
    else
      .jobj [("success", .jbool true), ("thread_id", threadId),
             ("interaction_id", (result.lookup "interaction_id").getD .jnull),
             ("message", .jstr "Thread started successfully. Use get_thread_status to check progress or continue_thread to add more messages."),
             ("status", .jstr "started"), ("polling", .jbool false)]

/-- Embedding of the continue_thread tool body (server.py 373-456). -/
def continueThreadBody (threadId : String) (response : JValue) : JValue :=
  if response.hasKey "error" then
    .jobj [("success", .jbool false),
           ("error", response.getD "error" .jnull),
           ("details", response.getD "details" (.jstr "")),
           ("thread_id", .jstr threadId), ("interaction_id", .jnull)]
  else
    let interactions := response.getD "interactions" (.jarr [])
    let acts := latestActions interactions
    let interactionId :=
      if interactions.truthy then
        match interactions.asList.getLast? with
        | some latestInteraction => (latestInteraction.lookup "interaction_id").getD .jnull
        | none => .jnull
      else .jnull
    .jobj [("success", .jbool true),
           ("thread_id", .jstr threadId),
           ("interaction_id", interactionId),
           ("answer", extractAnswer response),
           ("plans", .jarr (collectTruthyField acts "plan")),
           ("code_blocks", .jarr (collectTruthyField acts "code")),
           ("code_outputs", .jarr (collectTruthyField acts "code_output")),
           ("artifacts", .jarr (artifactsFound interactions.asList)),
           ("interactions_count", .jnum (interactions.asList.length : Int)),
           ("raw_response", response)]

/-- Python `str(v)` as far as the embedded code needs it (only string-typed
values reach the `str()` fallbacks on the states the claims range over;
container/number reprs are abstracted). -/
def pyStr (v : JValue) : String :=
  match v with
  | .jstr s => s
  | .jnull => "None"
  | .jbool true => "True"
  | .jbool false => "False"
  | .jnum n => toString n
  | _ => "<repr>"

/-- The `code` sub-dict built by the get_thread_status tool body
(server.py 586-602). -/
def codeField (action : JValue) : JValue :=
  let codeData := action.getD "code" (.jobj [])
  if !codeData.truthy then .jobj []
  else
    match codeData with
    | .jobj _ =>
      .jobj [("code_block_id", codeData.getD "code_block_id" (.jstr "")),
             ("code", codeData.getD "code" (.jstr "")),
             ("query_plan", codeData.getD "query_plan" (.jstr "")),
             ("execution_start_timestamp", (codeData.lookup "execution_start_timestamp").getD .jnull),
             ("execution_end_timestamp", (codeData.lookup "execution_end_timestamp").getD .jnull),
             ("output", (codeData.lookup "output").getD .jnull),
             ("error", (codeData.lookup "error").getD .jnull),
             ("sql_statements", codeData.getD "sql_statements" (.jarr []))]
    | other => .jobj [("code", .jstr (pyStr other))]

/-- The `user_message` sub-dict built by the get_thread_status tool body
(server.py 545-562). -/
def userMessageField (interaction : JValue) : JValue :=
  let um := interaction.getD "user_message" (.jobj [])
  if !um.truthy then .jobj []
  else
    match um with
    | .jobj _ =>
      .jobj [("message", um.getD "message" (.jstr "")),
             ("timestamp", um.getD "timestamp" (.jstr "")),
             ("timezone", um.getD "timezone" (.jstr "")),
             ("uploads", um.getD "uploads" (.jarr []))]
    | other =>
      .jobj [("message", .jstr (pyStr other)), ("timestamp", .jstr ""),
             ("timezone", .jstr ""), ("uploads", .jarr [])]

/-- One `action_data` entry of the get_thread_status tool body
(server.py 567-584), `j` counting from 1. -/
def buildActionData (j : Nat) (action : JValue) : JValue :=
  .jobj [("action_number", .jnum (j : Int)),
         ("action_id", (action.lookup "action_id").getD .jnull),
         ("status", action.getD "status" (.jstr "unknown")),
         ("message", action.getD "message" (.jstr "")),
         ("plan", action.getD "plan" (.jstr "")),
         ("code", codeField action),
         ("code_output", action.getD "code_output" (.jstr "")),
         ("artifacts", action.getD "artifact_identifiers" (.jarr [])),
         ("timing", .jobj [
           ("created_timestamp", action.getD "created_timestamp" (.jstr "")),
           ("response_start_timestamp", action.getD "response_start_timestamp" (.jstr "")),
           ("action_end_timestamp", action.getD "action_end_timestamp" (.jstr "")),
           ("llm_call_start_timestamp", action.getD "llm_call_start_timestamp" (.jstr "")),
           ("llm_call_end_timestamp", action.getD "llm_call_end_timestamp" (.jstr ""))])]

/-- One `interaction_data` entry of the get_thread_status tool body
(server.py 537-606), `i` counting from 1. -/
def buildInteractionData (i : Nat) (interaction : JValue) : JValue :=
  .jobj [("interaction_number", .jnum (i : Int)),
         ("interaction_id", (interaction.lookup "interaction_id").getD .jnull),
         ("user_message", userMessageField interaction),
         ("assistant_actions", .jarr
           (((interaction.getD "assistant_actions" (.jarr [])).asList).enum.map
             (fun p => buildActionData (p.1 + 1) p.2)))]

/-- Embedding of the get_thread_status tool body (server.py 496-612) applied
to the client result. -/
def getThreadStatusToolBody (threadId : String) (result : JValue) : JValue :=
  if result.hasKey "error" then
    .jobj [("success", .jbool false),
           ("error", result.getD "error" .jnull),
           ("details", result.getD "details" (.jstr "")),
           ("thread_id", .jstr threadId),
           ("status", .jstr "error"), ("title", .jstr ""), ("version", .jstr ""),
           ("interactions_count", .jnum 0),
           ("message", .jstr ("Error getting thread " ++ threadId ++ " status")),
           ("interactions", .jarr [])]
  else
    let status := result.getD "status" (.jstr "unknown")
    let threadData := result.getD "thread_data" (.jobj [])
    let interactions := (threadData.getD "interactions" (.jarr [])).asList
    .jobj [("success", .jbool true),
           ("thread_id", .jstr threadId),
           ("status", status),
           ("interactions_count", .jnum (interactions.length : Int)),
           ("message", .jstr ("Thread " ++ threadId ++ " is " ++ pyStr status)),
           ("title", threadData.getD "title" (.jstr "")),
           ("version", threadData.getD "version" (.jstr "")),
           ("interactions", .jarr
             (interactions.enum.map (fun p => buildInteractionData (p.1 + 1) p.2))),
           ("raw_thread_data", threadData)]

/-- Embedding of the cancel_thread tool body (server.py 647-668). -/
def cancelThreadToolBody (threadId : String) (result : JValue) : JValue :=
  if result.hasKey "error" then
    .jobj [("success", .jbool false),
           ("error", result.getD "error" .jnull),
           ("details", result.getD "details" (.jstr "")),
           ("thread_id", .jstr threadId)]
  else
    .jobj [("success", .jbool true), ("thread_id", .jstr threadId),
           ("message", result.getD "message" (.jstr "Thread cancelled")),
           ("action", .jstr "cancelled"), ("raw_response", result)]

/-- Embedding of the get_artifact tool body (server.py 698-723). -/
def getArtifactToolBody (threadId artifactId : String) (result : JValue) : JValue :=
  if result.hasKey "error" then
    .jobj [("success", .jbool false),
           ("error", result.getD "error" .jnull),
           ("details", result.getD "details" (.jstr "")),
           ("thread_id", .jstr threadId), ("artifact_id", .jstr artifactId)]
  else
    .jobj [("success", .jbool true), ("thread_id", .jstr threadId),
           ("artifact_id", .jstr artifactId),
           ("content_type", (result.lookup "content_type").getD .jnull),
           ("size", (result.lookup "size").getD .jnull),
           ("data", (result.lookup "data").getD .jnull),
           ("message", .jstr ("Artifact " ++ artifactId ++
             " retrieved successfully from thread " ++ threadId)),
           ("raw_response", result)]

/-! ## The tool-invocation boundary (server.py try/except wrappers)

Each tool's `try:` body is a computation that may raise (client construction
and the client call are the raising operations, entering as explicit
values); the `except Exception` clause converts an exception into the tool's
failure dict.  `traceback.format_exc()` is abstracted to a fixed string. -/

/-- The Python `try: body except Exception as e: return handler(e)` shape. -/
def tryTool (body : Except PyExn JValue) (handler : PyExn → JValue) : Except PyExn JValue :=
  match body with
  | .ok v => .ok v
  | .error e => .ok (handler e)

/-- Embedding of the start_thread tool (server.py 139-269); `call` is the
outcome of `client.start_thread(...)`. -/
def toolStartThread (cfg : ConfigState) (call : Except PyExn JValue) : Except PyExn JValue :=
  tryTool
    (do
      let _ ← getPromptqlClient cfg
      let result ← call
      pure (startThreadBody result))
    (fun e => .jobj [("success", .jbool false),
                     ("error", .jstr ("Unexpected error: " ++ e)),
                     ("error_trace", .jstr "traceback"),
                     ("thread_id", .jnull), ("interaction_id", .jnull)])

/-- Embedding of the start_thread_without_polling tool (server.py 271-343). -/
def toolStartThreadNoPolling (cfg : ConfigState) (call : Except PyExn JValue) :
    Except PyExn JValue :=
  tryTool
    (do
      let _ ← getPromptqlClient cfg
      let result ← call
      pure (startThreadNoPollingBody result))
    (fun e => .jobj [("success", .jbool false),
                     ("error", .jstr ("Unexpected error: " ++ e)),
                     ("error_trace", .jstr "traceback"),
                     ("thread_id", .jnull), ("interaction_id", .jnull)])

/-- Embedding of the continue_thread tool (server.py 345-465). -/
def toolContinueThread (threadId : String) (cfg : ConfigState)
    (call : Except PyExn JValue) : Except PyExn JValue :=
  tryTool
    (do
      let _ ← getPromptqlClient cfg
      let response ← call
      pure (continueThreadBody threadId response))
    (fun e => .jobj [("success", .jbool false),
                     ("error", .jstr ("Unexpected error: " ++ e)),
                     ("thread_id", .jstr threadId), ("interaction_id", .jnull)])

/-- Embedding of the get_thread_status tool (server.py 467-626). -/
def toolGetThreadStatus (threadId : String) (cfg : ConfigState)
    (call : Except PyExn JValue) : Except PyExn JValue :=
  tryTool
    (do
      let _ ← getPromptqlClient cfg
      let result ← call
      pure (getThreadStatusToolBody threadId result))
    (fun e => .jobj [("success", .jbool false),
                     ("error", .jstr ("Unexpected error: " ++ e)),
                     ("thread_id", .jstr threadId),
                     ("status", .jstr "error"), ("title", .jstr ""), ("version", .jstr ""),
                     ("interactions_count", .jnum 0),
                     ("message", .jstr ("Unexpected error getting thread " ++ threadId ++ " status")),
                     ("interactions", .jarr [])])

/-- Embedding of the cancel_thread tool (server.py 628-676). -/
def toolCancelThread (threadId : String) (cfg : ConfigState)
    (call : Except PyExn JValue) : Except PyExn JValue :=
  tryTool
    (do
      let _ ← getPromptqlClient cfg
      let result ← call
      pure (cancelThreadToolBody threadId result))
    (fun e => .jobj [("success", .jbool false),
                     ("error", .jstr ("Unexpected error: " ++ e)),
                     ("thread_id", .jstr threadId)])

/-- Embedding of the get_artifact tool (server.py 678-731). -/
def toolGetArtifact (threadId artifactId : String) (cfg : ConfigState)
    (call : Except PyExn JValue) : Except PyExn JValue :=
  tryTool
    (do
      let _ ← getPromptqlClient cfg
      let responseData ← call
      pure (getArtifactToolBody threadId artifactId responseData))
    (fun e => .jobj [("success", .jbool false),
                     ("error", .jstr ("Get artifact error: " ++ e)),
                     ("thread_id", .jstr threadId), ("artifact_id", .jstr artifactId)])

/-- The masked API key of setup_config/check_config (server.py 52 / 104). -/
def maskedKeyOf (apiKey : String) : String :=
  if apiKey = "" then "None" else strTake apiKey 5 ++ "..." ++ strTakeRight apiKey 5

/-- The masked auth token of setup_config/check_config (server.py 53 / 105). -/
def maskedTokenOf (authToken : String) : String :=
  if authToken.data.length > 12 then strTake authToken 8 ++ "..." ++ strTakeRight authToken 4
  else strTake authToken 4 ++ "..."

/-- Embedding of the setup_config tool (server.py 35-83): validate
`auth_mode`, then store the four values (empty ones are dropped by
`ConfigManager.set`). Returns the updated configuration and the result
dict. The body contains no raising operation, so there is no handler. -/
def setupConfig (cfg : ConfigState) (apiKey playgroundUrl authToken authMode : String) :
    ConfigState × JValue :=
  if strLower authMode = "public" ∨ strLower authMode = "private" then
    let c1 := (configSet cfg "api_key" apiKey).1
    let c2 := (configSet c1 "playground_url" playgroundUrl).1
    let c3 := (configSet c2 "auth_token" authToken).1
    let c4 := (configSet c3 "auth_mode" (strLower authMode)).1
    (c4, .jobj [("success", .jbool true),
                ("message", .jstr "Configuration saved successfully."),
                ("configured_items", .jobj
                  [("api_key", .jstr (maskedKeyOf apiKey)),
                   ("playground_url", .jstr playgroundUrl),
                   ("auth_token", .jstr (maskedTokenOf authToken)),
                   ("auth_mode", .jstr (strLower authMode))])])
  else
    (cfg, .jobj [("success", .jbool false),
                 ("error", .jstr ("Invalid auth_mode \x27" ++ authMode ++
                   "\x27. Must be \x27public\x27 or \x27private\x27.")),
                 ("configured_items", .jobj [])])

/-- Embedding of the check_config tool (server.py 86-137). Its body contains
no raising operation (configuration reads cannot raise), so there is no
handler. -/
def checkConfig (cfg : ConfigState) : JValue :=
  let apiKey := configGet cfg "api_key"
  let playgroundUrl := configGet cfg "playground_url"
  let authToken := configGet cfg "auth_token"
  let authMode := getAuthMode cfg
  if optStrTruthy apiKey && optStrTruthy playgroundUrl && optStrTruthy authToken then
    .jobj [("configured", .jbool true),
           ("message", .jstr "PromptQL is fully configured"),
           ("configuration", .jobj
             [("api_key", .jstr (maskedKeyOf (apiKey.getD ""))),
              ("playground_url", .jstr (playgroundUrl.getD "")),
              ("auth_token", .jstr (maskedTokenOf (authToken.getD ""))),
              ("auth_mode", .jstr authMode)]),
           ("missing_items", .jarr [])]
  else
    let missing :=
      (if !optStrTruthy apiKey then ["API Key"] else []) ++
      (if !optStrTruthy playgroundUrl then ["Playground URL"] else []) ++
      (if !optStrTruthy authToken then ["Auth Token"] else [])
    .jobj [("configured", .jbool false),
           ("message", .jstr ("PromptQL is not fully configured. Missing: " ++
             String.intercalate ", " missing)),
           ("configuration", .jobj
             [("api_key", if optStrTruthy apiKey
                then .jstr (maskedKeyOf (apiKey.getD "")) else .jnull),
              ("playground_url", match playgroundUrl with
                | some s => .jstr s | none => .jnull),
              ("auth_token", match authToken with
                | some s => .jstr (maskedTokenOf s) | none => .jnull)]),
           ("missing_items", .jarr (missing.map .jstr))]

/-- The claim C4 shape of one tool's outcome: it never escapes as an
exception, and if the body raised then the returned dict is a structured
failure (`success=false` plus an `error` field). -/
def isOkFailureOnRaise (result : Except PyExn JValue) (raised : Bool) : Prop :=
  ∃ r, result = .ok r ∧
    (raised = true →
      r.lookup "success" = some (.jbool false) ∧ (r.lookup "error").isSome = true)

/-- Whether the tool body raised: client construction failed, or the client
call itself raised. -/
def bodyRaised (cfg : ConfigState) (call : Except PyExn JValue) : Bool :=
  !(getPromptqlClient cfg).isOk || !call.isOk

/-- C1 counterexample data: latest interaction with two assistant actions, the
first already `complete`, the last still `processing` with no message and no
LLM-call-end timestamp. -/
def c1ThreadData : JValue :=
  .jobj [("interactions", .jarr [
    .jobj [("assistant_actions", .jarr [
      .jobj [("status", .jstr "complete")],
      .jobj [("status", .jstr "processing")]])]])]

/-- C3 counterexample data: two `current-thread-state` blocks; the first
carries a truthy thread state, the second a `thread_state` that is non-null
but empty (`{}` is falsy in Python), so the parser keeps the first. -/
def c3Ed1 : JValue :=
  .jobj [("thread_state", .jobj [("interactions", .jarr [])]),
         ("thread_id", .jstr "t1"), ("title", .jstr "first"), ("version", .jnum 1)]

/-- Second block payload of the C3 counterexample (non-null but falsy state). -/
def c3Ed2 : JValue :=
  .jobj [("thread_state", .jobj []),
         ("thread_id", .jstr "t1"), ("title", .jstr "second"), ("version", .jnum 2)]

/-- `json.loads` on the C3 counterexample stream. -/
def c3Jloads : String → Option JValue := fun s =>
  if s = "payload1" then some c3Ed1
  else if s = "payload2" then some c3Ed2
  else none

/-- The C3 counterexample stream: two `current-thread-state` event blocks. -/
def c3Lines : List String :=
  ["event: current-thread-state", "data: payload1", "",
   "event: current-thread-state", "data: payload2", ""]

/-- C3 witness data: first block payload, truthy thread state. -/
def c3wEd1 : JValue :=
  .jobj [("thread_state", .jobj [("interactions", .jarr [])]), ("thread_id", .jstr "w")]

/-- C3 witness data: second block payload, truthy thread state. -/
def c3wEd2 : JValue :=
  .jobj [("thread_state", .jobj [("interactions", .jarr [.jobj []])]), ("thread_id", .jstr "w")]

/-- `json.loads` on the C3 witness stream. -/
def c3wJloads : String → Option JValue := fun s =>
  if s = "p1" then some c3wEd1 else if s = "p2" then some c3wEd2 else none

/-- The C3 witness stream. -/
def c3wLines : List String :=
  ["event: current-thread-state", "data: p1", "",
   "event: current-thread-state", "data: p2"]

/-- C5 counterexample data: the thread state a plain JSON body denotes. -/
def c5ThreadState : JValue := .jobj [("interactions", .jarr [])]

/-- C5 counterexample data: a response body that is a single plain JSON
object (one line of JSON text, not SSE-framed). -/
def c5Body : String := "\x7b\x22interactions\x22: []\x7d"

/-- `json.loads` for the C5 counterexample: the plain body parses to the
thread state (as `_parse_thread_response` would have found). -/
def c5Jloads : String → Option JValue := fun s =>
  if s = c5Body then some c5ThreadState else none

/-- C5 witness data: `json.loads` for a one-block SSE stream. -/
def c5wJloads : String → Option JValue := fun s =>
  if s = "pw" then some (.jobj [("thread_state", .jobj [("interactions", .jarr [])])]) else none

/-- The C5 witness stream: one `current-thread-state` block. -/
def c5wLines : List String := ["event: current-thread-state", "data: pw"]

/-- The enhanced snapshot the C5 witness stream delivers. -/
def c5wSnap : JValue :=
  .jobj [("interactions", .jarr []), ("thread_id", .jnull), ("title", .jnull),
         ("version", .jnull)]

/-- The optional value is absent or a JSON array (the shapes the wire
protocol produces for list-valued fields). -/
def isArrOpt : Option JValue → Bool
  | none => true
  | some (.jarr _) => true
  | _ => false

/-- C2 witness data: an earlier action with a message. -/
def c2wAct0 : JValue := .jobj [("message", .jstr "first draft")]

/-- C2 witness data: the later action with a message. -/
def c2wAct1 : JValue := .jobj [("message", .jstr "final answer")]

/-- C2 witness data: the latest interaction with two message-carrying
actions. -/
def c2wInteraction : JValue :=
  .jobj [("interaction_id", .jstr "i2"),
         ("assistant_actions", .jarr [c2wAct0, c2wAct1])]

/-- C2 witness data: a successful thread-state result. -/
def c2wResult : JValue :=
  .jobj [("thread_id", .jstr "t2"), ("interaction_id", .jstr "i2"),
         ("interactions", .jarr [c2wInteraction])]

/-- C10 witness data: the latest interaction whose actions carry only null,
empty, or no messages. -/
def c10wInteraction : JValue :=
  .jobj [("assistant_actions", .jarr
    [.jobj [("message", .jnull)], .jobj [("message", .jstr "")],
     .jobj [("status", .jstr "complete")]])]

/-- C10 witness data: a successful thread-state result with no message. -/
def c10wResult : JValue :=
  .jobj [("thread_id", .jstr "t10"),
         ("interactions", .jarr [c10wInteraction])]

/-- Witness data: a fully configured state (client construction succeeds). -/
def cfgConfigured : ConfigState :=
  ⟨[], [("api_key", "key12"), ("playground_url", "https://x/playground"),
        ("auth_token", "tok")]⟩

/-- C4 witness data: an unconfigured state (client construction raises). -/
def c4wCfg : ConfigState := ⟨[], []⟩

/-- C8 witness data: the second status fetch reports a transport error. -/
def c8wFetchErr : Nat → JValue := fun i =>
  if i = 0 then .jobj [("status", .jstr "processing")]
  else .jobj [("error", .jstr "Connection error while getting thread status")]

/-- C8 witness data: every status fetch reports still-processing. -/
def c8wFetchBusy : Nat → JValue := fun _ => .jobj [("status", .jstr "processing")]

/-! # Theorems -/

/-- The last element of `a :: l`: the last of `l` if any, else `a`. -/
theorem lastOfCons {α : Type} (a : α) (l : List α) :
    (a :: l).getLast? = match l.getLast? with | some s => some s | none => some a := by
  cases l with
  | nil => rfl
  | cons b t =>
    rw [List.getLast?_cons_cons]
    cases h : (b :: t).getLast? with
    | some s => rfl
    | none => exact absurd (List.getLast?_eq_none_iff.mp h) (by simp)

/-- The SSE fold keeps the last snapshot delivered so far (or the initial
state when the stream delivers none). -/
theorem foldl_parseSseLine (jloads : String → Option JValue) :
    ∀ (lines : List String) (et : Option String) (st : Option JValue),
    (lines.foldl (parseSseLine jloads) (et, st)).2 =
      match (stateSnapshotsFrom jloads et lines).getLast? with
      | some s => some s
      | none => st := by
  intro lines
  induction lines with
  | nil => intro et st; rfl
  | cons line rest ih =>
    intro et st
    rw [List.foldl_cons]
    by_cases he : strStartsWith line "event: "
    · rw [show parseSseLine jloads (et, st) line = (some (strDrop line 7), st) by
        simp [parseSseLine, he]]
      rw [show stateSnapshotsFrom jloads et (line :: rest) =
          stateSnapshotsFrom jloads (some (strDrop line 7)) rest by
        simp [stateSnapshotsFrom, he]]
      exact ih _ _
    · by_cases hd : strStartsWith line "data: "
      · cases hj : jloads (strDrop line 6) with
        | none =>
          rw [show parseSseLine jloads (et, st) line = (et, st) by
            simp [parseSseLine, he, hd, hj]]
          rw [show stateSnapshotsFrom jloads et (line :: rest) =
              stateSnapshotsFrom jloads et rest by
            simp [stateSnapshotsFrom, he, hd, hj]]
          exact ih _ _
        | some eventData =>
          by_cases h1 : et = some "current-thread-state"
          · by_cases h2 : eventData.hasKey "thread_state" = true
            · by_cases h3 : (eventData.getD "thread_state" .jnull).truthy = true
              · rw [show parseSseLine jloads (et, st) line =
                    (et, some (enhanceState eventData)) by
                  simp [parseSseLine, he, hd, hj, h1, h2, h3]]
                rw [show stateSnapshotsFrom jloads et (line :: rest) =
                    enhanceState eventData :: stateSnapshotsFrom jloads et rest by
                  simp [stateSnapshotsFrom, he, hd, hj, h1, h2, h3]]
                rw [ih et (some (enhanceState eventData)), lastOfCons]
                cases (stateSnapshotsFrom jloads et rest).getLast? <;> rfl
              · rw [show parseSseLine jloads (et, st) line = (et, st) by
                  simp [parseSseLine, he, hd, hj, h1, h2, h3]]
                rw [show stateSnapshotsFrom jloads et (line :: rest) =
                    stateSnapshotsFrom jloads et rest by
                  simp [stateSnapshotsFrom, he, hd, hj, h1, h2, h3]]
                exact ih _ _
            · rw [show parseSseLine jloads (et, st) line = (et, st) by
                simp [parseSseLine, he, hd, hj, h1, h2]]
              rw [show stateSnapshotsFrom jloads et (line :: rest) =
                  stateSnapshotsFrom jloads et rest by
                simp [stateSnapshotsFrom, he, hd, hj, h1, h2]]
              exact ih _ _
          · rw [show parseSseLine jloads (et, st) line = (et, st) by
              simp [parseSseLine, he, hd, hj, h1]]
            rw [show stateSnapshotsFrom jloads et (line :: rest) =
                stateSnapshotsFrom jloads et rest by
              simp [stateSnapshotsFrom, he, hd, hj, h1]]
            exact ih _ _
      · by_cases hb : line = ""
        · rw [show parseSseLine jloads (et, st) line = (none, st) by subst hb; rfl]
          rw [show stateSnapshotsFrom jloads et (line :: rest) =
              stateSnapshotsFrom jloads none rest by subst hb; rfl]
          exact ih _ _
        · rw [show parseSseLine jloads (et, st) line = (et, st) by
            simp [parseSseLine, he, hd, hb]]
          rw [show stateSnapshotsFrom jloads et (line :: rest) =
              stateSnapshotsFrom jloads et rest by
            simp [stateSnapshotsFrom, he, hd, hb]]
          exact ih _ _

/-- C1 (counterexample): the claim's "at least one assistant action" predicate
disagrees with `_is_thread_complete` on a thread whose latest interaction has
an earlier `complete` action but a last action that signals nothing: the
spec-side predicate holds, the code returns `false`. -/
theorem c1_counterexample :
    specCompleteAny c1ThreadData = true ∧ isThreadComplete c1ThreadData = false :=
  ⟨rfl, rfl⟩

/-- C1 (amended): for every thread state, `_is_thread_complete` returns true
iff the latest interaction's assistant-action list is non-empty and its **last**
action has status `complete`, or carries a non-null `message`, or has the
`llm_call_end_timestamp` key set. -/
theorem c1_last_action_completeness (td : JValue) :
    isThreadComplete td = specCompleteLast td := by
  unfold isThreadComplete specCompleteLast interactionsList actionsList
  simp only [JValue.getD]
  cases hi : td.lookup "interactions" with
  | none => simp [JValue.truthy]
  | some v =>
    cases v with
    | jarr items =>
      cases hl : items.getLast? with
      | none =>
        have : items = [] := by
          cases items with
          | nil => rfl
          | cons x xs => simp [List.getLast?] at hl
        subst this
        simp [JValue.truthy]
      | some latest =>
        have hne : items.isEmpty = false := by
          cases items with
          | nil => simp [List.getLast?] at hl
          | cons x xs => rfl
        simp only [Option.getD, JValue.truthy, hne, Bool.not_false, if_pos, hl]
        cases ha : latest.lookup "assistant_actions" with
        | none => simp [Option.getD]
        | some w =>
          cases w with
          | jarr acts =>
            cases hal : acts.getLast? with
            | none => simp [Option.getD, hal]
            | some lastAction => simp [Option.getD, hal, actionSignalsCompletion]
          | jnull => simp [Option.getD]
          | jbool b => simp [Option.getD]
          | jnum n => simp [Option.getD]
          | jstr s => simp [Option.getD]
          | jobj g => simp [Option.getD]
    | jnull => simp [JValue.truthy]
    | jbool b => cases b <;> simp [JValue.truthy]
    | jnum n => by_cases h : n = 0 <;> simp [JValue.truthy, h]
    | jstr s => by_cases h : s = "" <;> simp [JValue.truthy, h]
    | jobj g => cases g <;> simp [JValue.truthy]

/-- Snapshots of a stream none of whose lines is SSE-framed: there are none. -/
theorem stateSnapshotsFrom_no_sse (jloads : String → Option JValue) :
    ∀ (lines : List String) (et : Option String),
    (∀ l ∈ lines, strStartsWith l "event: " = false ∧ strStartsWith l "data: " = false) →
    stateSnapshotsFrom jloads et lines = [] := by
  intro lines
  induction lines with
  | nil => intro et _; rfl
  | cons line rest ih =>
    intro et h
    have hline := h line (by simp)
    have hrest : ∀ l ∈ rest, strStartsWith l "event: " = false ∧ strStartsWith l "data: " = false :=
      fun l hl => h l (by simp [hl])
    by_cases hb : line = ""
    · subst hb
      rw [show stateSnapshotsFrom jloads et ("" :: rest) =
          stateSnapshotsFrom jloads none rest from rfl]
      exact ih none hrest
    · rw [show stateSnapshotsFrom jloads et (line :: rest) =
          stateSnapshotsFrom jloads et rest by
        simp [stateSnapshotsFrom, hline.1, hline.2, hb]]
      exact ih et hrest

/-- C3 (counterexample): a stream whose two `current-thread-state` blocks both
carry a non-null nested `thread_state`, but where the second one is the empty
object (non-null yet falsy in Python): the parser keeps the first block's
state, so the returned state is not the second block's. -/
theorem c3_counterexample :
    (c3Ed1.getD "thread_state" .jnull).isNull = false ∧
    (c3Ed2.getD "thread_state" .jnull).isNull = false ∧
    parseSseStream c3Jloads c3Lines ≠ enhanceState c3Ed2 := by
  refine ⟨rfl, rfl, ?_⟩
  intro h
  have h1 : (parseSseStream c3Jloads c3Lines).lookup "interactions" = some (.jarr []) := rfl
  have h2 : (enhanceState c3Ed2).lookup "interactions" = none := rfl
  rw [h] at h1
  exact Option.noConfusion (h2.symm.trans h1)

/-- C3 (amended): for every SSE stream delivering exactly two
`current-thread-state` blocks whose nested `thread_state` is truthy
(non-empty), `_parse_sse_stream` returns the second (later) block's enhanced
state, not the first. -/
theorem c3_second_snapshot_wins (jloads : String → Option JValue)
    (lines : List String) (s1 s2 : JValue)
    (h : stateSnapshots jloads lines = [s1, s2]) :
    parseSseStream jloads lines = s2 := by
  unfold parseSseStream
  rw [foldl_parseSseLine jloads lines none none]
  unfold stateSnapshots at h
  rw [h]
  rfl

/-- C3 (witness): the amended theorem applied to a concrete stream with two
truthy snapshots. -/
theorem c3_second_snapshot_wins_witness :
    stateSnapshots c3wJloads c3wLines = [enhanceState c3wEd1, enhanceState c3wEd2] ∧
    parseSseStream c3wJloads c3wLines = enhanceState c3wEd2 :=
  ⟨rfl, c3_second_snapshot_wins c3wJloads c3wLines
    (enhanceState c3wEd1) (enhanceState c3wEd2) rfl⟩

/-- C5 (counterexample): a 200 response whose body is a single plain JSON
object (which `json.loads` parses to a thread state) makes `get_thread_status`
return the SSE parse-failure error dict — it does not return that object's
thread state, because only `_parse_sse_stream` is ever applied. -/
theorem c5_counterexample :
    c5Jloads c5Body = some c5ThreadState ∧
    getThreadStatusClient c5Jloads "t1" (.ok ⟨200, [c5Body], c5Body⟩) =
      .jobj [("error", .jstr "Failed to parse thread status from SSE stream")] ∧
    (getThreadStatusClient c5Jloads "t1" (.ok ⟨200, [c5Body], c5Body⟩)).lookup
      "thread_data" = none := by
  refine ⟨?_, rfl, rfl⟩
  simp [c5Jloads]

/-- C5 (amended): `get_thread_status` handles only the SSE encoding. For a 200
response whose stream delivers a final truthy snapshot `s` it returns the
status dict with `thread_data = s`; for a 200 response none of whose lines is
SSE-framed (in particular a plain JSON object body) it returns the SSE
parse-failure error dict. -/
theorem c5_sse_only_parsing :
    (∀ (jloads : String → Option JValue) (tid : String) (lines : List String)
       (txt : String) (prevSnaps : List JValue) (s : JValue),
       stateSnapshots jloads lines = prevSnaps ++ [s] → s.truthy = true →
       getThreadStatusClient jloads tid (.ok ⟨200, lines, txt⟩) =
         .jobj [("thread_id", .jstr tid),
                ("status", .jstr (if isThreadComplete s then "complete" else "processing")),
                ("thread_data", s)]) ∧
    (∀ (jloads : String → Option JValue) (tid : String) (lines : List String)
       (txt : String),
       (∀ l ∈ lines, strStartsWith l "event: " = false ∧ strStartsWith l "data: " = false) →
       getThreadStatusClient jloads tid (.ok ⟨200, lines, txt⟩) =
         .jobj [("error", .jstr "Failed to parse thread status from SSE stream")]) := by
  constructor
  · intro jloads tid lines txt prevSnaps s hsnap htru
    have hps : parseSseStream jloads lines = s := by
      unfold parseSseStream
      rw [foldl_parseSseLine jloads lines none none]
      unfold stateSnapshots at hsnap
      rw [hsnap, List.getLast?_concat]
      rfl
    simp [getThreadStatusClient, hps, htru]
  · intro jloads tid lines txt h
    have hps : parseSseStream jloads lines = .jobj [] := by
      unfold parseSseStream
      rw [foldl_parseSseLine jloads lines none none]
      rw [stateSnapshotsFrom_no_sse jloads lines none h]
      rfl
    simp [getThreadStatusClient, hps, JValue.truthy]

/-- C5 (witness): the amended theorem applied to a concrete one-block SSE
stream and to a concrete plain-JSON body. -/
theorem c5_sse_only_parsing_witness :
    (stateSnapshots c5wJloads c5wLines = [] ++ [c5wSnap] ∧ c5wSnap.truthy = true ∧
      getThreadStatusClient c5wJloads "tw" (.ok ⟨200, c5wLines, ""⟩) =
        .jobj [("thread_id", .jstr "tw"),
               ("status", .jstr (if isThreadComplete c5wSnap then "complete" else "processing")),
               ("thread_data", c5wSnap)]) ∧
    ((∀ l ∈ [c5Body], strStartsWith l "event: " = false ∧ strStartsWith l "data: " = false) ∧
      getThreadStatusClient c5wJloads "tw" (.ok ⟨200, [c5Body], ""⟩) =
        .jobj [("error", .jstr "Failed to parse thread status from SSE stream")]) :=
  ⟨⟨rfl, rfl, c5_sse_only_parsing.1 c5wJloads "tw" c5wLines "" [] c5wSnap rfl rfl⟩,
   ⟨by intro l hl; rw [List.mem_singleton] at hl; subst hl; exact ⟨rfl, rfl⟩,
    c5_sse_only_parsing.2 c5wJloads "tw" [c5Body] ""
      (by intro l hl; rw [List.mem_singleton] at hl; subst hl; exact ⟨rfl, rfl⟩)⟩⟩

/-- Scanning a reversed list finds the element at the greatest index
satisfying the predicate. -/
theorem reverse_find_at_last_index {α : Type} (p : α → Bool) (l : List α)
    (i : Nat) (a : α)
    (hi : l[i]? = some a) (hpa : p a = true)
    (hafter : (l.drop (i + 1)).all (fun b => !p b) = true) :
    l.reverse.find? p = some a := by
  have hilen : i < l.length := (List.getElem?_eq_some.mp hi).1
  have hsplit := List.take_append_drop (i + 1) l
  calc l.reverse.find? p
      = ((l.take (i + 1) ++ l.drop (i + 1)).reverse).find? p := by rw [hsplit]
    _ = ((l.drop (i + 1)).reverse ++ (l.take (i + 1)).reverse).find? p := by
        rw [List.reverse_append]
    _ = (((l.drop (i + 1)).reverse).find? p).or (((l.take (i + 1)).reverse).find? p) :=
        List.find?_append
    _ = some a := ?_
  have hnone : ((l.drop (i + 1)).reverse).find? p = none := by
    rw [List.find?_eq_none]
    intro x hx
    have hx' : x ∈ l.drop (i + 1) := List.mem_reverse.mp hx
    have := List.all_eq_true.mp hafter x hx'
    simp at this
    simp [this]
  rw [hnone, Option.none_or]
  have hlast : (l.take (i + 1)).getLast? = some a := by
    rw [List.getLast?_eq_getElem?, List.length_take,
      Nat.min_eq_left (by omega : i + 1 ≤ l.length)]
    simp only [Nat.add_sub_cancel]
    rw [List.getElem?_take]
    simp [Nat.lt_succ_self, hi]
  have hhead : ((l.take (i + 1)).reverse).head? = some a := by
    rw [List.head?_reverse]; exact hlast
  cases hrev : (l.take (i + 1)).reverse with
  | nil => rw [hrev] at hhead; exact absurd hhead (by simp)
  | cons x t =>
    rw [hrev] at hhead
    have hxa : x = a := by simpa using hhead
    subst hxa
    exact List.find?_cons_of_pos t hpa

/-- `find?` only depends on the predicate's values on the list. -/
theorem find?_congr_mem {α : Type} (p q : α → Bool) (l : List α)
    (h : ∀ x ∈ l, p x = q x) : l.find? p = l.find? q := by
  induction l with
  | nil => rfl
  | cons x t ih =>
    have hx := h x (by simp)
    by_cases hp : p x = true
    · rw [List.find?_cons_of_pos t hp, List.find?_cons_of_pos t (hx ▸ hp)]
    · have hq : ¬q x = true := by rw [← hx]; exact hp
      rw [List.find?_cons_of_neg t hp, List.find?_cons_of_neg t hq]
      exact ih (fun y hy => h y (by simp [hy]))

/-- On well-formed message fields, the code's truthiness test agrees with
"carries a non-empty message". -/
theorem msgTruthy_eq_nonEmptyMsg (a : JValue) (h : msgWellFormed a = true) :
    ((a.lookup "message").getD .jnull).truthy = nonEmptyMsg a := by
  unfold msgWellFormed at h
  unfold nonEmptyMsg
  cases hm : a.lookup "message" with
  | none => simp [Option.getD, JValue.truthy]
  | some v =>
    rw [hm] at h
    cases v <;> simp_all [Option.getD, JValue.truthy]

/-- The extraction loop returns the message of the action at the greatest
index carrying a truthy message. -/
theorem extractAnswer_eq (result : JValue) (items acts : List JValue)
    (latest a : JValue) (i : Nat)
    (hints : result.lookup "interactions" = some (.jarr items))
    (hlatest : items.getLast? = some latest)
    (hacts : latest.lookup "assistant_actions" = some (.jarr acts))
    (hwf : acts.all msgWellFormed = true)
    (hi : acts[i]? = some a)
    (hpa : nonEmptyMsg a = true)
    (hafter : (acts.drop (i + 1)).all (fun b => !nonEmptyMsg b) = true) :
    extractAnswer result = a.getD "message" (.jstr "") := by
  have hie : items.isEmpty = false := by
    cases items with
    | nil => simp [List.getLast?] at hlatest
    | cons x t => rfl
  have hfind : acts.reverse.find? (fun b => ((b.lookup "message").getD .jnull).truthy)
      = some a := by
    rw [find?_congr_mem _ nonEmptyMsg _ (fun x hx =>
      msgTruthy_eq_nonEmptyMsg x (List.all_eq_true.mp hwf x (List.mem_reverse.mp hx)))]
    refine reverse_find_at_last_index nonEmptyMsg acts i a hi hpa ?_
    rw [List.all_eq_true] at hafter ⊢
    exact fun x hx => hafter x hx
  unfold extractAnswer
  rw [show result.getD "interactions" (.jarr []) = .jarr items by
    simp [JValue.getD, hints]]
  rw [if_neg (by simp [JValue.truthy, hie])]
  rw [show (JValue.jarr items).asList = items from rfl, hlatest]
  simp only []
  rw [show (latest.getD "assistant_actions" (.jarr [])).asList = acts by
    simp [JValue.getD, hacts, JValue.asList]]
  rw [hfind]

/-- When no action of the latest interaction carries a truthy message, the
extraction loop keeps the placeholder. -/
theorem extractAnswer_placeholder (result : JValue)
    (hsh1 : isArrOpt (result.lookup "interactions") = true)
    (hsh2 : ∀ latest, (interactionsList result).getLast? = some latest →
      isArrOpt (latest.lookup "assistant_actions") = true)
    (hwfm : ∀ latest, (interactionsList result).getLast? = some latest →
      (actionsList latest).all msgWellFormed = true)
    (hnomsg : ∀ latest, (interactionsList result).getLast? = some latest →
      (actionsList latest).all (fun b => !nonEmptyMsg b) = true) :
    extractAnswer result = noAnswerPlaceholder := by
  unfold extractAnswer
  cases hints : result.lookup "interactions" with
  | none =>
    rw [show result.getD "interactions" (.jarr []) = .jarr [] by
      simp [JValue.getD, hints]]
    rfl
  | some v =>
    rw [hints] at hsh1
    cases v with
    | jarr items =>
      rw [show result.getD "interactions" (.jarr []) = .jarr items by
        simp [JValue.getD, hints]]
      cases items with
      | nil => rfl
      | cons it0 its =>
        have hlatest : ∃ latest, (it0 :: its).getLast? = some latest := by
          cases h : (it0 :: its).getLast? with
          | none => exact absurd (List.getLast?_eq_none_iff.mp h) (by simp)
          | some x => exact ⟨x, rfl⟩
        obtain ⟨latest, hlatest⟩ := hlatest
        have hil : interactionsList result = it0 :: its := by
          unfold interactionsList; rw [hints]
        rw [if_neg (by simp [JValue.truthy])]
        rw [show (JValue.jarr (it0 :: its)).asList = it0 :: its from rfl, hlatest]
        simp only []
        have hsh2' := hsh2 latest (by rw [hil]; exact hlatest)
        have hwfm' := hwfm latest (by rw [hil]; exact hlatest)
        have hnomsg' := hnomsg latest (by rw [hil]; exact hlatest)
        cases hacts : latest.lookup "assistant_actions" with
        | none =>
          rw [show (latest.getD "assistant_actions" (.jarr [])).asList = [] by
            simp [JValue.getD, hacts, JValue.asList]]
          rfl
        | some w =>
          rw [hacts] at hsh2'
          cases w with
          | jarr acts =>
            rw [show (latest.getD "assistant_actions" (.jarr [])).asList = acts by
              simp [JValue.getD, hacts, JValue.asList]]
            have hal : actionsList latest = acts := by
              unfold actionsList; rw [hacts]
            rw [hal] at hwfm' hnomsg'
            have hfind : acts.reverse.find?
                (fun b => ((b.lookup "message").getD .jnull).truthy) = none := by
              rw [List.find?_eq_none]
              intro x hx
              have hx' : x ∈ acts := List.mem_reverse.mp hx
              rw [msgTruthy_eq_nonEmptyMsg x (List.all_eq_true.mp hwfm' x hx')]
              have := List.all_eq_true.mp hnomsg' x hx'
              simp at this
              simp [this]
            rw [hfind]
          | jnull => simp [isArrOpt] at hsh2'
          | jbool b => simp [isArrOpt] at hsh2'
          | jnum n => simp [isArrOpt] at hsh2'
          | jstr s => simp [isArrOpt] at hsh2'
          | jobj g => simp [isArrOpt] at hsh2'
    | jnull => simp [isArrOpt] at hsh1
    | jbool b => simp [isArrOpt] at hsh1
    | jnum n => simp [isArrOpt] at hsh1
    | jstr s => simp [isArrOpt] at hsh1
    | jobj g => simp [isArrOpt] at hsh1

/-- C2: on a successful result whose latest interaction has two or more
actions with non-empty messages, both the start_thread and the
continue_thread tool bodies put the message of the highest-index such action
(index `i`, nothing later carries a message) into the `answer` field — never
an earlier one. -/
theorem c2_latest_message_wins (result : JValue) (tid : String)
    (items acts : List JValue) (latest a : JValue) (i : Nat)
    (hne : result.hasKey "error" = false)
    (htid : ((result.lookup "thread_id").getD .jnull).truthy = true)
    (hints : result.lookup "interactions" = some (.jarr items))
    (hlatest : items.getLast? = some latest)
    (hacts : latest.lookup "assistant_actions" = some (.jarr acts))
    (hwf : acts.all msgWellFormed = true)
    (_htwo : 2 ≤ acts.countP nonEmptyMsg)
    (hi : acts[i]? = some a)
    (hpa : nonEmptyMsg a = true)
    (hafter : (acts.drop (i + 1)).all (fun b => !nonEmptyMsg b) = true) :
    (startThreadBody result).lookup "answer" = some (a.getD "message" (.jstr "")) ∧
    (continueThreadBody tid result).lookup "answer" = some (a.getD "message" (.jstr "")) := by
  have hext := extractAnswer_eq result items acts latest a i hints hlatest hacts hwf hi hpa hafter
  constructor
  · simp only [startThreadBody, hne, Bool.false_eq_true, if_false, htid, Bool.not_true]
    rw [← hext]
    rfl
  · simp only [continueThreadBody, hne, Bool.false_eq_true, if_false]
    rw [← hext]
    rfl

/-- C2 (witness): the amended-free theorem applied to a concrete result with
two message-carrying actions — the later one wins. -/
theorem c2_latest_message_wins_witness :
    2 ≤ List.countP nonEmptyMsg [c2wAct0, c2wAct1] ∧
    (startThreadBody c2wResult).lookup "answer" = some (.jstr "final answer") ∧
    (continueThreadBody "t2" c2wResult).lookup "answer" = some (.jstr "final answer") := by
  have h := c2_latest_message_wins c2wResult "t2" [c2wInteraction] [c2wAct0, c2wAct1]
    c2wInteraction c2wAct1 1 rfl rfl rfl rfl rfl rfl (by decide) rfl rfl rfl
  exact ⟨by decide, h.1, h.2⟩

/-- C10: on a successful result none of whose latest-interaction actions
carries a non-empty message, both the start_thread and the continue_thread
tool bodies return `success = true` with the fixed placeholder answer. -/
theorem c10_placeholder_answer (result : JValue) (tid : String)
    (hne : result.hasKey "error" = false)
    (htid : ((result.lookup "thread_id").getD .jnull).truthy = true)
    (hsh1 : isArrOpt (result.lookup "interactions") = true)
    (hsh2 : ∀ latest, (interactionsList result).getLast? = some latest →
      isArrOpt (latest.lookup "assistant_actions") = true)
    (hwfm : ∀ latest, (interactionsList result).getLast? = some latest →
      (actionsList latest).all msgWellFormed = true)
    (hnomsg : ∀ latest, (interactionsList result).getLast? = some latest →
      (actionsList latest).all (fun b => !nonEmptyMsg b) = true) :
    (startThreadBody result).lookup "success" = some (.jbool true) ∧
    (startThreadBody result).lookup "answer" = some noAnswerPlaceholder ∧
    (continueThreadBody tid result).lookup "success" = some (.jbool true) ∧
    (continueThreadBody tid result).lookup "answer" = some noAnswerPlaceholder := by
  have hext := extractAnswer_placeholder result hsh1 hsh2 hwfm hnomsg
  refine ⟨?_, ?_, ?_, ?_⟩
  · simp only [startThreadBody, hne, Bool.false_eq_true, if_false, htid, Bool.not_true]
    rfl
  · simp only [startThreadBody, hne, Bool.false_eq_true, if_false, htid, Bool.not_true]
    rw [← hext]
    rfl
  · simp only [continueThreadBody, hne, Bool.false_eq_true, if_false]
    rfl
  · simp only [continueThreadBody, hne, Bool.false_eq_true, if_false]
    rw [← hext]
    rfl

/-- C10 (witness): the theorem applied to a concrete result whose actions
carry only null, empty, or no messages. -/
theorem c10_placeholder_answer_witness :
    (startThreadBody c10wResult).lookup "success" = some (.jbool true) ∧
    (startThreadBody c10wResult).lookup "answer" = some noAnswerPlaceholder ∧
    (continueThreadBody "t10" c10wResult).lookup "success" = some (.jbool true) ∧
    (continueThreadBody "t10" c10wResult).lookup "answer" = some noAnswerPlaceholder :=
  c10_placeholder_answer c10wResult "t10" rfl rfl rfl
    (fun latest h => by
      rw [show (interactionsList c10wResult).getLast? = some c10wInteraction from rfl] at h
      cases h; rfl)
    (fun latest h => by
      rw [show (interactionsList c10wResult).getLast? = some c10wInteraction from rfl] at h
      cases h; rfl)
    (fun latest h => by
      rw [show (interactionsList c10wResult).getLast? = some c10wInteraction from rfl] at h
      cases h; rfl)

/-- C6: when the cancel endpoint answers HTTP 400 (thread not processing),
the client returns an error-carrying dict (raising nothing — the result is a
returned value), and the cancel tool surfaces it as `success = false` without
an escaping exception. -/
theorem c6_cancel_rejected_reported (cfg : ConfigState) (threadId body : String)
    (hcfg : (getPromptqlClient cfg).isOk = true) :
    ((cancelThreadClient threadId (.ok ⟨400, body⟩)).lookup "error").isSome = true ∧
    toolCancelThread threadId cfg
        (.ok (cancelThreadClient threadId (.ok ⟨400, body⟩))) =
      .ok (.jobj [("success", .jbool false),
                  ("error", .jstr "Cannot cancel thread"),
                  ("details", .jstr "Thread is not currently processing an interaction"),
                  ("thread_id", .jstr threadId)]) := by
  obtain ⟨c, hc⟩ : ∃ c, getPromptqlClient cfg = .ok c := by
    cases h : getPromptqlClient cfg with
    | ok c => exact ⟨c, rfl⟩
    | error e => rw [h] at hcfg; simp [Except.isOk, Except.toBool] at hcfg
  constructor
  · rfl
  · unfold toolCancelThread
    rw [hc]
    rfl

/-- C6 (witness): the theorem applied to a concrete configured state. -/
theorem c6_cancel_rejected_reported_witness :
    ((cancelThreadClient "t6" (.ok ⟨400, "bad request"⟩)).lookup "error").isSome = true ∧
    toolCancelThread "t6" cfgConfigured
        (.ok (cancelThreadClient "t6" (.ok ⟨400, "bad request"⟩))) =
      .ok (.jobj [("success", .jbool false),
                  ("error", .jstr "Cannot cancel thread"),
                  ("details", .jstr "Thread is not currently processing an interaction"),
                  ("thread_id", .jstr "t6")]) :=
  c6_cancel_rejected_reported cfgConfigured "t6" "bad request" rfl

/-- C7: when the artifact endpoint answers HTTP 404, the client returns the
"Artifact not found" error dict (whose error text contains "not found"), and
the artifact tool surfaces it as `success = false`; nothing is raised — both
are returned values. -/
theorem c7_artifact_not_found_reported (cfg : ConfigState)
    (threadId artifactId : String) (jb : Option JValue) (cth : Option String)
    (txt : String) (len : Nat)
    (hcfg : (getPromptqlClient cfg).isOk = true) :
    (getArtifactClient threadId artifactId (.ok ⟨404, jb, cth, txt, len⟩)).lookup "error" =
      some (.jstr "Artifact not found") ∧
    (∃ pre post : String, "Artifact not found" = pre ++ "not found" ++ post) ∧
    toolGetArtifact threadId artifactId cfg
        (.ok (getArtifactClient threadId artifactId (.ok ⟨404, jb, cth, txt, len⟩))) =
      .ok (.jobj [("success", .jbool false),
                  ("error", .jstr "Artifact not found"),
                  ("details", .jstr ("Artifact " ++ artifactId ++
                    " not found in thread " ++ threadId)),
                  ("thread_id", .jstr threadId),
                  ("artifact_id", .jstr artifactId)]) := by
  obtain ⟨c, hc⟩ : ∃ c, getPromptqlClient cfg = .ok c := by
    cases h : getPromptqlClient cfg with
    | ok c => exact ⟨c, rfl⟩
    | error e => rw [h] at hcfg; simp [Except.isOk, Except.toBool] at hcfg
  refine ⟨rfl, ⟨"Artifact ", "", rfl⟩, ?_⟩
  unfold toolGetArtifact
  rw [hc]
  rfl

/-- C7 (witness): the theorem applied to a concrete configured state and
artifact id. -/
theorem c7_artifact_not_found_reported_witness :
    (getArtifactClient "t7" "a7" (.ok ⟨404, none, none, "", 0⟩)).lookup "error" =
      some (.jstr "Artifact not found") ∧
    (∃ pre post : String, "Artifact not found" = pre ++ "not found" ++ post) ∧
    toolGetArtifact "t7" "a7" cfgConfigured
        (.ok (getArtifactClient "t7" "a7" (.ok ⟨404, none, none, "", 0⟩))) =
      .ok (.jobj [("success", .jbool false),
                  ("error", .jstr "Artifact not found"),
                  ("details", .jstr ("Artifact " ++ "a7" ++
                    " not found in thread " ++ "t7")),
                  ("thread_id", .jstr "t7"),
                  ("artifact_id", .jstr "a7")]) :=
  c7_artifact_not_found_reported cfgConfigured "t7" "a7" none none "" 0 rfl

/-- Reaching an erroring status fetch: the loop reaches iteration `k` (all
earlier iterations neither error nor complete) and returns `fetch k`
unchanged. -/
theorem pollGo_short_circuit (fetch : Nat → JValue) (maxWait pollInterval k : Nat)
    (hk : k * pollInterval < maxWait)
    (hbefore : ∀ j, j < k → (fetch j).hasKey "error" = false ∧
      optEqStr ((fetch j).lookup "status") "complete" = false)
    (herr : (fetch k).hasKey "error" = true) :
    ∀ (fuel i : Nat), i ≤ k → k - i < fuel →
      pollGo fetch maxWait pollInterval fuel i = fetch k := by
  intro fuel
  induction fuel with
  | zero => intro i hik hfuel; omega
  | succ f ih =>
    intro i hik hfuel
    have hcond : i * pollInterval < maxWait :=
      Nat.lt_of_le_of_lt (Nat.mul_le_mul_right _ hik) hk
    unfold pollGo
    rw [if_pos hcond]
    by_cases hik' : i = k
    · subst hik'
      rw [if_pos herr]
    · have hlt : i < k := by omega
      obtain ⟨h1, h2⟩ := hbefore i hlt
      rw [if_neg (by simp [h1]), if_neg (by simp [h2])]
      exact ih (i + 1) (by omega) (by omega)

/-- Never completing within the budget: the loop returns the timeout dict. -/
theorem pollGo_timeout (fetch : Nat → JValue) (maxWait pollInterval : Nat)
    (hall : ∀ j, j * pollInterval < maxWait → (fetch j).hasKey "error" = false ∧
      optEqStr ((fetch j).lookup "status") "complete" = false) :
    ∀ (fuel i : Nat), pollGo fetch maxWait pollInterval fuel i = timeoutResult maxWait := by
  intro fuel
  induction fuel with
  | zero => intro i; rfl
  | succ f ih =>
    intro i
    unfold pollGo
    by_cases hc : i * pollInterval < maxWait
    · obtain ⟨h1, h2⟩ := hall i hc
      rw [if_pos hc, if_neg (by simp [h1]), if_neg (by simp [h2])]
      exact ih (i + 1)
    · rw [if_neg hc]

/-- C8: (a) an error result from any status fetch short-circuits the poll
loop: it is returned as-is, and the outcome does not depend on any fetch
after it (stated via an arbitrary `fetchAgree` that agrees up to the erroring
iteration); (b) if no iteration inside the wall-clock budget errs or reports
completion, the poller returns the timeout error dict, which differs from the
transport-error dict `get_thread_status` produces on a connection error. -/
theorem c8_poll_short_circuit_and_timeout :
    (∀ (fetch fetchAgree : Nat → JValue) (maxWait pollInterval k : Nat),
      1 ≤ pollInterval → k * pollInterval < maxWait →
      (∀ j, j < k → (fetch j).hasKey "error" = false ∧
        optEqStr ((fetch j).lookup "status") "complete" = false) →
      (fetch k).hasKey "error" = true →
      (∀ j, j ≤ k → fetchAgree j = fetch j) →
      pollThreadCompletion fetchAgree maxWait pollInterval = fetch k) ∧
    (∀ (fetch : Nat → JValue) (maxWait pollInterval : Nat),
      1 ≤ pollInterval →
      (∀ j, j * pollInterval < maxWait → (fetch j).hasKey "error" = false ∧
        optEqStr ((fetch j).lookup "status") "complete" = false) →
      pollThreadCompletion fetch maxWait pollInterval = timeoutResult maxWait ∧
      (∀ (jloads : String → Option JValue) (tid : String),
        timeoutResult maxWait ≠ getThreadStatusClient jloads tid (.error .connectionError))) := by
  constructor
  · intro fetch fetchAgree maxWait pollInterval k hPI hk hbefore herr hagree
    have hk' : k < maxWait :=
      Nat.lt_of_le_of_lt (Nat.le_mul_of_pos_right k hPI) hk
    have := pollGo_short_circuit fetchAgree maxWait pollInterval k hk
      (fun j hj => by rw [hagree j (by omega)]; exact hbefore j hj)
      (by rw [hagree k (by omega)]; exact herr)
      (maxWait + 1) 0 (by omega) (by omega)
    unfold pollThreadCompletion
    rw [this, hagree k (by omega)]
  · intro fetch maxWait pollInterval hPI hall
    constructor
    · exact pollGo_timeout fetch maxWait pollInterval hall (maxWait + 1) 0
    · intro jloads tid h
      have hs : "Thread processing timeout after " ++ toString maxWait ++ " seconds" =
          "Connection error while getting thread status" := by
        have h2 := congrArg (fun v => v.lookup "error") h
        simpa [timeoutResult, getThreadStatusClient, JValue.lookup, List.lookup] using h2
      have hd := congrArg String.data hs
      rw [String.data_append, String.data_append] at hd
      have hh : (some 'T' : Option Char) = some 'C' := congrArg List.head? hd
      exact absurd hh (by decide)

/-- C8 (witness): the theorem applied to two concrete fetch streams at the
default budget and interval (120, 2). -/
theorem c8_poll_short_circuit_and_timeout_witness :
    pollThreadCompletion c8wFetchErr 120 2 = c8wFetchErr 1 ∧
    pollThreadCompletion c8wFetchBusy 120 2 = timeoutResult 120 ∧
    timeoutResult 120 ≠ getThreadStatusClient (fun _ => none) "t8" (.error .connectionError) := by
  refine ⟨?_, ?_, ?_⟩
  · exact c8_poll_short_circuit_and_timeout.1 c8wFetchErr c8wFetchErr 120 2 1
      (by decide) (by decide)
      (fun j hj => by
        have : j = 0 := by omega
        subst this
        exact ⟨rfl, rfl⟩)
      rfl (fun j _ => rfl)
  · exact (c8_poll_short_circuit_and_timeout.2 c8wFetchBusy 120 2 (by decide)
      (fun j _ => ⟨rfl, rfl⟩)).1
  · exact (c8_poll_short_circuit_and_timeout.2 c8wFetchBusy 120 2 (by decide)
      (fun j _ => ⟨rfl, rfl⟩)).2 (fun _ => none) "t8"

/-- A helper for C9: updating one key leaves the lookup of a different key
unchanged. -/
theorem lookup_setAssoc_ne {β : Type} (l : List (String × β)) (k k' : String) (v : β)
    (h : (k == k') = false) :
    List.lookup k (JValue.setAssoc l k' v) = List.lookup k l := by
  induction l with
  | nil => simp [JValue.setAssoc, List.lookup, h]
  | cons p t ih =>
    obtain ⟨p1, p2⟩ := p
    unfold JValue.setAssoc
    by_cases hp : p1 = k'
    · subst hp
      rw [if_pos rfl]
      simp [List.lookup, h]
    · rw [if_neg hp]
      simp only [List.lookup]
      cases hkp : k == p1 with
      | true => rfl
      | false => exact ih

/-- A helper for C9: `ConfigManager.set` with a key other than `api_key`
leaves the stored `api_key` binding unchanged. -/
theorem configSet_preserves_api_key (c : ConfigState) (key' v' : String)
    (h : ("api_key" == strLower key') = false) :
    List.lookup "api_key" ((configSet c key' v').1).file =
      List.lookup "api_key" c.file := by
  unfold configSet
  by_cases hv : v' = ""
  · rw [if_pos hv]
  · rw [if_neg hv]
    exact lookup_setAssoc_ne c.file "api_key" (strLower key') v' h

/-- C9: `ConfigManager.set` with an empty (falsy) value leaves the stored
configuration unchanged and writes nothing; consequently `setup_config` with
an empty API key still reports `success = true` while the stored `api_key`
binding is untouched. -/
theorem c9_empty_value_not_persisted :
    (∀ (cfg : ConfigState) (key : String), configSet cfg key "" = (cfg, false)) ∧
    (∀ (cfg : ConfigState) (url tok : String),
      ((setupConfig cfg "" url tok "public").2).lookup "success" = some (.jbool true) ∧
      List.lookup "api_key" ((setupConfig cfg "" url tok "public").1).file =
        List.lookup "api_key" cfg.file) := by
  have hempty : ∀ (cfg : ConfigState) (key : String), configSet cfg key "" = (cfg, false) := by
    intro cfg key
    unfold configSet
    rw [if_pos rfl]
  refine ⟨hempty, ?_⟩
  intro cfg url tok
  constructor
  · rfl
  · show List.lookup "api_key"
      ((configSet (configSet (configSet (configSet cfg "api_key" "").1
        "playground_url" url).1 "auth_token" tok).1
        "auth_mode" (strLower "public")).1).file = List.lookup "api_key" cfg.file
    rw [configSet_preserves_api_key _ "auth_mode" _ (by decide),
        configSet_preserves_api_key _ "auth_token" _ (by decide),
        configSet_preserves_api_key _ "playground_url" _ (by decide),
        hempty cfg "api_key"]

/-- A helper for C4: a `try/except`-wrapped tool whose handler builds a
structured failure never lets an exception escape, and on a raise it returns
the handler's failure dict. -/
theorem wrapped_tool_ok (cfg : ConfigState) (call : Except PyExn JValue)
    (body : JValue → JValue) (handler : PyExn → JValue)
    (hhandler : ∀ e, (handler e).lookup "success" = some (.jbool false) ∧
      ((handler e).lookup "error").isSome = true) :
    isOkFailureOnRaise
      (tryTool (do
        let _ ← getPromptqlClient cfg
        let r ← call
        pure (body r)) handler)
      (bodyRaised cfg call) := by
  unfold isOkFailureOnRaise bodyRaised
  cases hc : getPromptqlClient cfg with
  | error e =>
    exact ⟨handler e, rfl, fun _ => hhandler e⟩
  | ok c =>
    cases hcall : call with
    | error e =>
      exact ⟨handler e, rfl, fun _ => hhandler e⟩
    | ok r =>
      refine ⟨body r, rfl, fun hr => ?_⟩
      simp [Except.isOk, Except.toBool] at hr

/-- C4: for every configuration and every outcome of the client call
(including a raised exception, and the `ValueError` raised when client
construction finds missing credentials), each of the six client-backed tools
returns an `ok` structured dict — never an escaping exception — and when the
body raised, that dict is a structured failure (`success = false` with an
`error` field); the two configuration tools are total functions of the
configuration returning structured dicts (their bodies contain no raising
operation). -/
theorem c4_no_exception_escapes :
    ∀ (cfg : ConfigState) (call : Except PyExn JValue) (tid aid : String)
      (apiKey url tok mode : String),
      isOkFailureOnRaise (toolStartThread cfg call) (bodyRaised cfg call) ∧
      isOkFailureOnRaise (toolStartThreadNoPolling cfg call) (bodyRaised cfg call) ∧
      isOkFailureOnRaise (toolContinueThread tid cfg call) (bodyRaised cfg call) ∧
      isOkFailureOnRaise (toolGetThreadStatus tid cfg call) (bodyRaised cfg call) ∧
      isOkFailureOnRaise (toolCancelThread tid cfg call) (bodyRaised cfg call) ∧
      isOkFailureOnRaise (toolGetArtifact tid aid cfg call) (bodyRaised cfg call) ∧
      (((setupConfig cfg apiKey url tok mode).2).lookup "success").isSome = true ∧
      ((checkConfig cfg).lookup "configured").isSome = true := by
  intro cfg call tid aid apiKey url tok mode
  refine ⟨?_, ?_, ?_, ?_, ?_, ?_, ?_, ?_⟩
  · exact wrapped_tool_ok cfg call startThreadBody _ (fun e => ⟨rfl, rfl⟩)
  · exact wrapped_tool_ok cfg call startThreadNoPollingBody _ (fun e => ⟨rfl, rfl⟩)
  · exact wrapped_tool_ok cfg call (continueThreadBody tid) _ (fun e => ⟨rfl, rfl⟩)
  · exact wrapped_tool_ok cfg call (getThreadStatusToolBody tid) _ (fun e => ⟨rfl, rfl⟩)
  · exact wrapped_tool_ok cfg call (cancelThreadToolBody tid) _ (fun e => ⟨rfl, rfl⟩)
  · exact wrapped_tool_ok cfg call (getArtifactToolBody tid aid) _ (fun e => ⟨rfl, rfl⟩)
  · unfold setupConfig
    split <;> rfl
  · simp only [checkConfig]
    split <;> rfl

/-- C4 (witness): the theorem applied to an unconfigured state (client
construction raises `ValueError`) and a raising client call, where the body
raised. -/
theorem c4_no_exception_escapes_witness :
    isOkFailureOnRaise (toolStartThread c4wCfg (.error "boom")) true ∧
    isOkFailureOnRaise (toolStartThreadNoPolling c4wCfg (.error "boom")) true ∧
    isOkFailureOnRaise (toolContinueThread "t4" c4wCfg (.error "boom")) true ∧
    isOkFailureOnRaise (toolGetThreadStatus "t4" c4wCfg (.error "boom")) true ∧
    isOkFailureOnRaise (toolCancelThread "t4" c4wCfg (.error "boom")) true ∧
    isOkFailureOnRaise (toolGetArtifact "t4" "a4" c4wCfg (.error "boom")) true ∧
    (((setupConfig c4wCfg "k" "u" "t" "public").2).lookup "success").isSome = true ∧
    ((checkConfig c4wCfg).lookup "configured").isSome = true :=
  c4_no_exception_escapes c4wCfg (.error "boom") "t4" "a4" "k" "u" "t" "public"

end PromptQLMcp
